import Mathlib

/-!
Verification of the multi-language chat client (`useMultiLanguageWebSocket`
hook and the dashboard components) against its natural-language
specification.  The JavaScript source is shallowly embedded: JSON objects
become association lists of string keys and `JValue`s, the event handlers
of the hook become pure functions on explicit state, and the React effects
become state-transformers.  JavaScript runtime errors (such as calling a
string method on a number) are modelled with `Except`.
-/

/-- A JSON-like value as it appears in the frames and stored messages of
the client: strings, numbers, booleans and null. -/
inductive JValue where
  | s (v : String)
  | n (v : Int)
  | b (v : Bool)
  | null
deriving DecidableEq, Repr

/-- A JSON object, in the field order the source writes it. -/
abbrev JObj := List (String × JValue)

/-- Field access `obj.key`: the first binding of `key`, or `none` when the
key is absent (JavaScript `undefined`). -/
def jLookup (o : JObj) (k : String) : Option JValue :=
  match o with
  | [] => none
  | (k', v) :: rest => if k' = k then some v else jLookup rest k

/-- JavaScript truthiness of a `JValue`: empty string, zero, `false` and
`null` are falsy. -/
def jTruthy : JValue → Bool
  | .s v => v != ""
  | .n v => v != 0
  | .b v => v
  | .null => false

/-- JavaScript `obj.key || fallback`: the field when present and truthy,
otherwise the fallback. -/
def jGetOr (o : JObj) (k : String) (fallback : JValue) : JValue :=
  match jLookup o k with
  | some v => if jTruthy v then v else fallback
  | none => fallback

/-! ### The WebSocket hook (`useMultiLanguageWebSocket`)

Embedded from `src/unnamed/part_002`. -/

/-- The object serialized by `ws.onopen`: the initial connection message
`{ user_id: userId, language: userLanguage }`. -/
def joinFrame (userId userLanguage : String) : JObj :=
  [("user_id", JValue.s userId), ("language", JValue.s userLanguage)]

/-- The object serialized by `sendMessage`:
`{ type: 'chat', content, timestamp: new Date().toISOString() }`.
The wall-clock reading is passed in as `now`. -/
def chatFrame (content now : String) : JObj :=
  [("type", JValue.s "chat"), ("content", JValue.s content),
   ("timestamp", JValue.s now)]

/-- Result of a `sendMessage` call: the frames written to the socket and
the boolean returned to the caller. -/
structure SendResult where
  sent : List JObj
  ok : Bool
deriving DecidableEq, Repr

/-- `sendMessage(content)`: guarded by `socket && isConnected`; on success
it writes exactly one chat frame and returns `true`, otherwise it writes
nothing and returns `false`. `socketPresent` models `socket !== null`. -/
def sendMessage (socketPresent isConnected : Bool) (content now : String) :
    SendResult :=
  if socketPresent && isConnected then
    { sent := [chatFrame content now], ok := true }
  else
    { sent := [], ok := false }

/-- An incoming `message` frame, with the fields the server puts on the
wire (the spec's outbound message frame shape, including `sequence`). -/
structure MessageFrame where
  user_id : String
  content : String
  original_content : String
  language : String
  is_original : Bool
  sequence : Int
  timestamp : Option String
deriving DecidableEq, Repr

/-- The `case 'message'` handler of `ws.onmessage`: the object appended to
the `messages` state. `freshId` models `Date.now() + Math.random()` (a
fresh positive number) and `now` models `new Date().toISOString()`; the
stored timestamp is `data.timestamp || now`. -/
def storeMessage (freshId : Int) (f : MessageFrame) (now : String) : JObj :=
  [("id", JValue.n freshId),
   ("user_id", JValue.s f.user_id),
   ("content", JValue.s f.content),
   ("original_content", JValue.s f.original_content),
   ("language", JValue.s f.language),
   ("is_original", JValue.b f.is_original),
   ("timestamp", JValue.s (match f.timestamp with
     | some t => if t = "" then now else t
     | none => now))]

/-- Processing a list of `message` frames in arrival order, with fresh ids
`startId, startId + 1, ...`. -/
def storeAllFrom (startId : Int) : List MessageFrame → String → List JObj
  | [], _ => []
  | f :: rest, now => storeMessage startId f now :: storeAllFrom (startId + 1) rest now

/-- Processing a list of `message` frames from id 1 on. -/
def storeAll (frames : List MessageFrame) (now : String) : List JObj :=
  storeAllFrom 1 frames now

/-- A roster entry `{ user_id, language }` kept in the `roomUsers` state. -/
structure RoomUser where
  user_id : String
  language : String
deriving DecidableEq, Repr

/-- The `case 'user_joined'` roster update: append the new user unless an
entry with the same `user_id` already exists. -/
def applyUserJoined (prev : List RoomUser) (uid lang : String) : List RoomUser :=
  match prev.find? (fun u => u.user_id == uid) with
  | some _ => prev
  | none => prev ++ [⟨uid, lang⟩]

/-- The `case 'user_left'` roster update: keep every entry whose `user_id`
differs from the leaver. -/
def applyUserLeft (prev : List RoomUser) (uid : String) : List RoomUser :=
  prev.filter (fun u => u.user_id != uid)

/-- The reconnect bookkeeping of the hook: the attempt counter held in
`reconnectAttemptsRef`, the connection flags, and the list of delays (in
milliseconds) of the reconnection attempts scheduled so far. -/
structure ReconnectState where
  attempts : Nat
  isConnected : Bool
  isReconnecting : Bool
  scheduled : List Nat
deriving DecidableEq, Repr

/-- `maxReconnectAttempts = 5`. -/
def maxReconnectAttempts : Nat := 5

/-- State before any close event: counter at zero, nothing scheduled. -/
def initialReconnectState : ReconnectState :=
  { attempts := 0, isConnected := false, isReconnecting := false, scheduled := [] }

/-- The `ws.onclose` handler: clears the connection flag, and when the
close code is not 1000 and fewer than `maxReconnectAttempts` attempts have
been made, increments the counter and schedules a reconnect delayed by
`2000 * reconnectAttemptsRef.current` milliseconds. -/
def onClose (st : ReconnectState) (code : Nat) : ReconnectState :=
  if code ≠ 1000 ∧ st.attempts < maxReconnectAttempts then
    { st with
      isConnected := false,
      isReconnecting := true,
      attempts := st.attempts + 1,
      scheduled := st.scheduled ++ [2000 * (st.attempts + 1)] }
  else { st with isConnected := false }

/-! ### The dashboard (`MultiLanguageDashboard`)

Embedded from `src/unnamed/part_006`. -/

/-- The welcome message the dashboard seeds its `messages` state with
(string id `welcome-1`). -/
def welcomeMessage (username : String) : JObj :=
  [("id", JValue.s "welcome-1"),
   ("content", JValue.s ("Welcome " ++ username ++ "! Set up your languages to start multi-language conversations.")),
   ("sender_type", JValue.s "bot"),
   ("speaker_name", JValue.s "AI Assistant"),
   ("timestamp", JValue.null),
   ("emotion", JValue.s "neutral")]

/-- The per-message conversion inside the sync effect: a hook message is
reformatted into the dashboard shape. `currentUser` models
`user?.username || 'anonymous'`; the id fallback template string is
modelled by the constant `"ws-fresh"` (only reached when `msg.id` is
falsy, which never happens for hook-stored messages). -/
def formatWsMessage (currentUser : String) (msg : JObj) : JObj :=
  [("id", jGetOr msg "id" (JValue.s "ws-fresh")),
   ("content", (jLookup msg "content").getD JValue.null),
   ("sender_type", JValue.s
     (if jLookup msg "type" = some (JValue.s "system") then "system"
      else if jLookup msg "user_id" = some (JValue.s currentUser) then "user"
      else "other")),
   ("speaker_name", jGetOr msg "user_id" (JValue.s "Unknown")),
   ("timestamp", (jLookup msg "timestamp").getD JValue.null),
   ("original_content", (jLookup msg "original_content").getD JValue.null),
   ("language", (jLookup msg "language").getD JValue.null),
   ("is_original", (jLookup msg "is_original").getD JValue.null),
   ("emotion", JValue.s "neutral")]

/-- Whether the first list starts with the second (character-level test
behind `startsWith`). -/
def charsHaveFront : List Char → List Char → Bool
  | _, [] => true
  | [], _ :: _ => false
  | c :: cs, p :: ps => c == p && charsHaveFront cs ps

/-- JavaScript `m.id.startsWith('welcome')`: defined for string ids;
on a number, `null` or a missing id the real code throws a `TypeError`
(`startsWith` is not a function there), modelled as an `Except.error`. -/
def jsIdStartsWithWelcome : Option JValue → Except String Bool
  | some (JValue.s v) => .ok (charsHaveFront v.data "welcome".data)
  | _ => .error "TypeError: id.startsWith is not a function"

/-- The filter `prev.filter(m => !m.id.startsWith('welcome'))` of the sync
effect, propagating the possible `TypeError`. -/
def filterNonWelcome : List JObj → Except String (List JObj)
  | [] => .ok []
  | m :: rest => do
      let isW ← jsIdStartsWithWelcome (jLookup m "id")
      let tail ← filterNonWelcome rest
      .ok (if isW then tail else m :: tail)

/-- The sync effect of `MultiLanguageDashboard`: when `wsMessages` is
non-empty, replace the `messages` state by the non-welcome previous
messages followed by ALL of `wsMessages`, reformatted. -/
def dashSync (currentUser : String) (wsMessages prev : List JObj) :
    Except String (List JObj) :=
  if wsMessages.isEmpty then .ok prev
  else do
    let nonWelcome ← filterNonWelcome prev
    .ok (nonWelcome ++ wsMessages.map (formatWsMessage currentUser))

/-- The client-side state relevant to message display: the fresh-id
counter, the hook's `messages` state (`wsMessages` from the dashboard's
point of view) and the dashboard's `messages` state. -/
structure ClientState where
  nextId : Int
  wsMessages : List JObj
  dashMessages : List JObj
deriving DecidableEq, Repr

/-- Dashboard state as mounted: no hook messages yet, the welcome message
seeded, fresh ids from 1 on. -/
def initialClientState (username : String) : ClientState :=
  { nextId := 1, wsMessages := [], dashMessages := [welcomeMessage username] }

/-- One incoming `message` frame followed by one run of the sync effect:
the hook appends the stored message to `wsMessages`, then the effect
rebuilds `dashMessages` from the full `wsMessages` list. -/
def receiveFrame (currentUser : String) (st : ClientState)
    (f : MessageFrame) (now : String) : Except String ClientState := do
  let ws := st.wsMessages ++ [storeMessage st.nextId f now]
  let dash ← dashSync currentUser ws st.dashMessages
  .ok { nextId := st.nextId + 1, wsMessages := ws, dashMessages := dash }

/-- Processing a sequence of incoming `message` frames, each in its own
render cycle (one sync-effect run per frame). -/
def clientRun (currentUser : String) (st : ClientState) :
    List (MessageFrame × String) → Except String ClientState
  | [] => .ok st
  | (f, now) :: rest => do
      let st' ← receiveFrame currentUser st f now
      clientRun currentUser st' rest

/-- Result of a `sendTextMessage` call in the dashboard: the (unchanged)
`messages` state, the frames written to the socket, and whether the
failure notification was raised. -/
structure SendTextResult where
  messages : List JObj
  sent : List JObj
  errorNotified : Bool
deriving DecidableEq, Repr

/-- Whether a string is blank, i.e. `text.trim()` is falsy in JavaScript:
every character is whitespace. -/
def isBlank (text : String) : Bool :=
  text.data.all (fun c => c == ' ' || c == '\t' || c == '\n' || c == '\r')

/-- `sendTextMessage(text)` of `MultiLanguageDashboard`: returns early on
blank text (`!text.trim()`) or when not in a room; otherwise forwards the
text through the hook's `sendMessage` and raises an error notification
when that fails. It never touches the `messages` state. -/
def sendTextMessage (messages : List JObj) (isInRoom : Bool)
    (socketPresent isConnected : Bool) (text now : String) : SendTextResult :=
  if isBlank text || !isInRoom then
    { messages := messages, sent := [], errorNotified := false }
  else
    let r := sendMessage socketPresent isConnected text now
    { messages := messages, sent := r.sent, errorNotified := !r.ok }

/-! ### Server-side derivation and client rendering

The Room Controller itself is not part of the repository sources; the
client components in `src/unnamed/part_007` render what it sends. -/

/-- The per-target-language rendering of one chat event. -/
structure DerivedMessage where
  content : String
  original_content : String
  language : String
  is_original : Bool
deriving DecidableEq, Repr

/-- Modelled from the spec: the server-side Room Controller derivation
step (the backend is not under the repository sources) — for target
language `L`, if `L` equals the original language the derived message
carries the original text with `is_original = true` and translation is
skipped, otherwise the Translation Adapter output with
`is_original = false`. -/
def deriveMessage (originalText originalLang targetLang : String)
    (translate : String → String → String → String) : DerivedMessage :=
  if targetLang = originalLang then
    { content := originalText, original_content := originalText,
      language := targetLang, is_original := true }
  else
    { content := translate originalText originalLang targetLang,
      original_content := originalText,
      language := targetLang, is_original := false }

/-- Modelled from the spec: the fan-out step — every participant receives
the derived message for their own declared language. -/
def fanOut (participants : List RoomUser) (originalText originalLang : String)
    (translate : String → String → String → String) :
    List (RoomUser × DerivedMessage) :=
  participants.map (fun p =>
    (p, deriveMessage originalText originalLang p.language translate))

/-- The condition of `SimpleMultiLanguageDashboard` under which the
`Original:` line is rendered:
`message.original_content && message.original_content !== message.content`
(truthy, i.e. present and non-empty, and different from the content). -/
def showOriginalLine (content : String) (originalContent : Option String) : Bool :=
  match originalContent with
  | some oc => (oc != "") && (oc != content)
  | none => false

/-! ### Concrete inputs used by counterexamples and evaluations. -/

/-- A concrete incoming message frame carrying `sequence = 5`. -/
def seqFrame : MessageFrame :=
  { user_id := "bob", content := "hola", original_content := "hello",
    language := "es", is_original := false, sequence := 5,
    timestamp := some "2025-01-01T00:00:00Z" }

/-- A concrete first incoming frame. -/
def frameHello : MessageFrame :=
  { user_id := "bob", content := "hello", original_content := "hello",
    language := "en", is_original := true, sequence := 1,
    timestamp := some "t1" }

/-- A concrete second incoming frame. -/
def frameWorld : MessageFrame :=
  { user_id := "bob", content := "world", original_content := "world",
    language := "en", is_original := true, sequence := 2,
    timestamp := some "t2" }

/-- A hook-shaped stored message with a string id, used to exercise the
merge logic of the sync effect past its id-filter. -/
def strIdMsg (i content : String) : JObj :=
  [("id", JValue.s i), ("user_id", JValue.s "bob"),
   ("content", JValue.s content), ("timestamp", JValue.s "T")]

/-! ## Theorems -/

/-- Auxiliary: the field `content` of a stored hook message is the
content of the frame it was built from. -/
theorem jLookup_storeMessage_content (i : Int) (f : MessageFrame) (now : String) :
    jLookup (storeMessage i f now) "content" = some (JValue.s f.content) := rfl

/-- Auxiliary: a stored hook message has no `sequence` field. -/
theorem jLookup_storeMessage_sequence (i : Int) (f : MessageFrame) (now : String) :
    jLookup (storeMessage i f now) "sequence" = none := rfl

/-- Auxiliary: processing frames from any starting id stores them in
order with their contents, and never stores a `sequence` field. -/
theorem storeAllFrom_contents (frames : List MessageFrame) (startId : Int)
    (now : String) :
    (storeAllFrom startId frames now).map (fun m => jLookup m "content")
      = frames.map (fun f => some (JValue.s f.content)) ∧
    (storeAllFrom startId frames now).all
      (fun m => (jLookup m "sequence").isNone) = true := by
  induction frames generalizing startId with
  | nil => exact ⟨rfl, rfl⟩
  | cons f rest ih =>
      obtain ⟨h1, h2⟩ := ih (startId + 1)
      refine ⟨?_, ?_⟩
      · simp only [storeAllFrom, List.map_cons, h1,
          jLookup_storeMessage_content]
      · simp only [storeAllFrom, List.all_cons, h2,
          jLookup_storeMessage_sequence, Option.isNone_none, Bool.and_self]

/-- C1: the spec invariant says every participant observes each chat
event at most once, and the claim requires the dashboard sync effect not
to re-append frames already present in `messages`. The code violates
this: the effect rebuilds `messages` as the previous non-welcome
messages followed by ALL of `wsMessages`, so every already-synced frame
is appended again on each new frame — and its welcome-filter calls
`startsWith` on the numeric ids of those already-synced messages, which
throws a `TypeError` in the second render cycle, crashing the dashboard.
First conjunct: two frames arriving in separate cycles make the client
run end in the `TypeError`. Remaining conjuncts: on inputs whose ids are
strings (so the filter passes), the very same merge produces the first
message twice. -/
theorem C1_sync_effect_duplicates_frames :
    clientRun "alice" (initialClientState "alice")
        [(frameHello, "n1"), (frameWorld, "n2")]
      = .error "TypeError: id.startsWith is not a function" ∧
    dashSync "alice" [strIdMsg "101" "hello", strIdMsg "102" "world"]
        [formatWsMessage "alice" (strIdMsg "101" "hello")]
      = .ok [formatWsMessage "alice" (strIdMsg "101" "hello"),
             formatWsMessage "alice" (strIdMsg "101" "hello"),
             formatWsMessage "alice" (strIdMsg "102" "world")] ∧
    List.count (formatWsMessage "alice" (strIdMsg "101" "hello"))
      [formatWsMessage "alice" (strIdMsg "101" "hello"),
       formatWsMessage "alice" (strIdMsg "101" "hello"),
       formatWsMessage "alice" (strIdMsg "102" "world")] = 2 :=
  ⟨rfl, rfl, by decide⟩

/-- C2 counterexample: the hook sends the participant identifier under
the key `user_id`, not `participant_id` — at the concrete handshake of
user `alice` with language `en`, the serialized join object has no
`participant_id` field at all. -/
theorem C2_join_frame_counterexample :
    jLookup (joinFrame "alice" "en") "participant_id" = none ∧
    (joinFrame "alice" "en").map Prod.fst ≠ ["participant_id", "language"] := by
  decide

/-- C2 (amended): the first frame sent after connection establishment is
a join frame whose JSON body has exactly the fields `user_id` (the
participant identifier, a string) and `language` (a string). -/
theorem C2_join_frame_fields (uid lang : String) :
    (joinFrame uid lang).map Prod.fst = ["user_id", "language"] ∧
    jLookup (joinFrame uid lang) "user_id" = some (JValue.s uid) ∧
    jLookup (joinFrame uid lang) "language" = some (JValue.s lang) :=
  ⟨rfl, rfl, rfl⟩

/-- C3 counterexample: the chat frame the client sends also carries a
client-supplied `timestamp` field — at the concrete call
`sendMessage("hello")` the serialized object has keys `type`, `content`
and `timestamp`, not only `type` and `content`. -/
theorem C3_chat_frame_counterexample :
    (sendMessage true true "hello" "2025-01-01T00:00:00Z").sent.map
        (fun o => o.map Prod.fst)
      = [["type", "content", "timestamp"]] ∧
    (["type", "content", "timestamp"] : List String) ≠ ["type", "content"] := by
  decide

/-- C3 (amended): every chat frame the client sends has exactly the keys
`type`, `content` and `timestamp`, with `type = "chat"` and `content` the
given string; a client timestamp IS supplied (the server timestamp stays
authoritative per the spec, the client one is extra). -/
theorem C3_chat_frame_fields (content now : String) :
    (chatFrame content now).map Prod.fst = ["type", "content", "timestamp"] ∧
    jLookup (chatFrame content now) "type" = some (JValue.s "chat") ∧
    jLookup (chatFrame content now) "content" = some (JValue.s content) ∧
    jLookup (chatFrame content now) "timestamp" = some (JValue.s now) :=
  ⟨rfl, rfl, rfl, rfl⟩

/-- C4 counterexample: the stored message does not preserve the frame
`sequence` field — for the concrete incoming frame with `sequence = 5`,
the object the `message` handler stores has no `sequence` key. -/
theorem C4_sequence_not_stored_counterexample :
    seqFrame.sequence = 5 ∧
    jLookup (storeMessage 1 seqFrame "N") "sequence" = none ∧
    jLookup (storeMessage 1 seqFrame "N") "content" = some (JValue.s "hola") := by
  decide

/-- C4 (amended): the client appends exactly one stored message per
received `message` frame, in arrival order and with the frame content
preserved, but it drops the `sequence` field: no stored message has a
`sequence` key, so the server ordering is observable only through list
position. -/
theorem C4_stored_in_order_without_sequence (frames : List MessageFrame)
    (now : String) :
    (storeAll frames now).map (fun m => jLookup m "content")
      = frames.map (fun f => some (JValue.s f.content)) ∧
    (storeAll frames now).all (fun m => (jLookup m "sequence").isNone) = true :=
  storeAllFrom_contents frames 1 now

/-- C5: a participant whose declared language equals the sender language
receives the derived message with `is_original = true` and content equal
to the original content, and the dashboard `Original:` line (rendered
only when `original_content` is truthy and differs from `content`) never
appears for such a recipient. Server side modelled from the spec. -/
theorem C5_same_language_gets_original (participants : List RoomUser)
    (p : RoomUser) (text lang : String)
    (translate : String → String → String → String)
    (hp : p ∈ participants) (hl : p.language = lang) :
    ∃ d, (p, d) ∈ fanOut participants text lang translate ∧
      d.is_original = true ∧
      d.content = d.original_content ∧
      showOriginalLine d.content (some d.original_content) = false := by
  refine ⟨deriveMessage text lang p.language translate, ?_, ?_, ?_, ?_⟩
  · exact List.mem_map.mpr ⟨p, hp, rfl⟩
  · rw [hl]; simp [deriveMessage]
  · rw [hl]; simp [deriveMessage]
  · rw [hl]; simp [deriveMessage, showOriginalLine]

/-- C5 witness: a solo english-speaking room with an english sender. -/
theorem C5_same_language_witness :
    ∃ d, ((⟨"bob", "en"⟩ : RoomUser), d)
        ∈ fanOut [⟨"bob", "en"⟩] "hi" "en" (fun t _ _ => t) ∧
      d.is_original = true ∧
      d.content = d.original_content ∧
      showOriginalLine d.content (some d.original_content) = false :=
  C5_same_language_gets_original [⟨"bob", "en"⟩] ⟨"bob", "en"⟩ "hi" "en"
    (fun t _ _ => t) (by decide) rfl

/-- C6 counterexample: a successful `sendTextMessage("hello")` (in room,
socket present, connected) writes the chat frame to the socket but
leaves the local `messages` state empty — the sent text is NOT appended
locally. -/
theorem C6_no_local_append_counterexample :
    (sendTextMessage [] true true true "hello" "T").sent
      = [chatFrame "hello" "T"] ∧
    (sendTextMessage [] true true true "hello" "T").errorNotified = false ∧
    (sendTextMessage [] true true true "hello" "T").messages = [] := by
  decide

/-- C6 (amended): `sendTextMessage` never modifies the local `messages`
state — on success the text is only written to the WebSocket, so the
sender sees their own text only when the server echoes it back as a
`message` frame (the code relies on server echo, contrary to the
no-server-echo recommendation). -/
theorem C6_messages_state_unchanged (messages : List JObj)
    (isInRoom socketPresent isConnected : Bool) (text now : String) :
    (sendTextMessage messages isInRoom socketPresent isConnected text now).messages
      = messages := by
  unfold sendTextMessage
  split <;> rfl

/-- C7: processing a `user_joined` frame is idempotent on the roster, and
when the roster had pairwise-distinct `user_id`s before, it still has
them after. -/
theorem C7_user_joined_idempotent_unique (prev : List RoomUser)
    (uid lang : String) (h : (prev.map RoomUser.user_id).Nodup) :
    applyUserJoined (applyUserJoined prev uid lang) uid lang
      = applyUserJoined prev uid lang ∧
    ((applyUserJoined prev uid lang).map RoomUser.user_id).Nodup := by
  cases hf : prev.find? (fun u => u.user_id == uid) with
  | some u =>
      have heq : applyUserJoined prev uid lang = prev := by
        simp [applyUserJoined, hf]
      rw [heq]
      exact ⟨by simp [applyUserJoined, hf], h⟩
  | none =>
      have hnotin : uid ∉ prev.map RoomUser.user_id := by
        intro hmem
        obtain ⟨u, hu, he⟩ := List.mem_map.mp hmem
        have hfalse := List.find?_eq_none.mp hf u hu
        simp [he] at hfalse
      have heq : applyUserJoined prev uid lang = prev ++ [⟨uid, lang⟩] := by
        simp [applyUserJoined, hf]
      rw [heq]
      constructor
      · cases hf2 : (prev ++ [(⟨uid, lang⟩ : RoomUser)]).find?
            (fun u => u.user_id == uid) with
        | some u => simp [applyUserJoined, hf2]
        | none =>
            have hmem : (⟨uid, lang⟩ : RoomUser) ∈ prev ++ [⟨uid, lang⟩] :=
              List.mem_append.mpr (Or.inr (List.mem_singleton.mpr rfl))
            have hfalse := List.find?_eq_none.mp hf2 _ hmem
            simp at hfalse
      · rw [List.map_append]
        refine List.Nodup.append h (List.nodup_singleton uid) ?_
        intro a ha hb
        simp only [List.map_cons, List.map_nil, List.mem_singleton] at hb
        exact hnotin (hb ▸ ha)

/-- C7 witness: joining user `b` twice to the singleton roster of `a`. -/
theorem C7_user_joined_witness :
    applyUserJoined (applyUserJoined [⟨"a", "en"⟩] "b" "es") "b" "es"
      = applyUserJoined [⟨"a", "en"⟩] "b" "es" ∧
    ((applyUserJoined [⟨"a", "en"⟩] "b" "es").map RoomUser.user_id).Nodup :=
  C7_user_joined_idempotent_unique [⟨"a", "en"⟩] "b" "es" (by decide)

/-- C8: processing a `user_left` frame for `uid` removes exactly the
entries with that `user_id`: no such entry remains, every other entry is
kept, and the surviving entries keep their original relative order (the
result is a sublist of the previous roster). -/
theorem C8_user_left_removes_only_target (prev : List RoomUser) (uid : String) :
    List.Sublist (applyUserLeft prev uid) prev ∧
    (∀ u, u ∈ applyUserLeft prev uid → u.user_id ≠ uid) ∧
    (∀ u, u ∈ prev → u.user_id ≠ uid → u ∈ applyUserLeft prev uid) := by
  refine ⟨List.filter_sublist prev, ?_, ?_⟩
  · intro u hu
    have hp := (List.mem_filter.mp hu).2
    simpa [bne_iff_ne] using hp
  · intro u hu hne
    exact List.mem_filter.mpr ⟨hu, by simpa [bne_iff_ne] using hne⟩

/-- C8 witness: user `a` leaving the roster `[a, b]` keeps exactly `b`. -/
theorem C8_user_left_witness :
    List.Sublist (applyUserLeft [⟨"a", "en"⟩, ⟨"b", "es"⟩] "a")
      [⟨"a", "en"⟩, ⟨"b", "es"⟩] ∧
    (⟨"b", "es"⟩ : RoomUser).user_id ≠ "a" ∧
    (⟨"b", "es"⟩ : RoomUser) ∈ applyUserLeft [⟨"a", "en"⟩, ⟨"b", "es"⟩] "a" :=
  ⟨(C8_user_left_removes_only_target [⟨"a", "en"⟩, ⟨"b", "es"⟩] "a").1,
   (C8_user_left_removes_only_target [⟨"a", "en"⟩, ⟨"b", "es"⟩] "a").2.1
     ⟨"b", "es"⟩ (by decide),
   (C8_user_left_removes_only_target [⟨"a", "en"⟩, ⟨"b", "es"⟩] "a").2.2
     ⟨"b", "es"⟩ (by decide) (by decide)⟩

/-- Auxiliary: one close event preserves the reconnect invariant (at
most `maxReconnectAttempts` attempts, the i-th scheduled with delay
`2000 * (i + 1)`). -/
theorem onClose_keeps_invariant (st : ReconnectState) (code : Nat)
    (h1 : st.attempts ≤ maxReconnectAttempts)
    (h2 : st.scheduled = (List.range st.attempts).map (fun i => 2000 * (i + 1))) :
    (onClose st code).attempts ≤ maxReconnectAttempts ∧
    (onClose st code).scheduled
      = (List.range (onClose st code).attempts).map (fun i => 2000 * (i + 1)) := by
  unfold onClose
  split
  next hc =>
    refine ⟨hc.2, ?_⟩
    simp [h2, List.range_succ]
  next => exact ⟨h1, h2⟩

/-- Auxiliary: the reconnect invariant holds after any sequence of close
events. -/
theorem foldl_onClose_invariant (codes : List Nat) (st : ReconnectState)
    (h1 : st.attempts ≤ maxReconnectAttempts)
    (h2 : st.scheduled = (List.range st.attempts).map (fun i => 2000 * (i + 1))) :
    (codes.foldl onClose st).attempts ≤ maxReconnectAttempts ∧
    (codes.foldl onClose st).scheduled
      = (List.range (codes.foldl onClose st).attempts).map
          (fun i => 2000 * (i + 1)) := by
  induction codes generalizing st with
  | nil => exact ⟨h1, h2⟩
  | cons c rest ih =>
      obtain ⟨h1', h2'⟩ := onClose_keeps_invariant st c h1 h2
      exact ih (onClose st c) h1' h2'

/-- C9: a close with code 1000 never schedules a reconnection attempt
(and leaves the attempt counter alone); over any sequence of close
events from the initial state, at most 5 attempts are scheduled in
total, and the n-th scheduled attempt is delayed by 2000*n milliseconds
(the delay list is exactly `[2000, 4000, ...]`). -/
theorem C9_reconnect_policy (st : ReconnectState) (codes : List Nat) :
    (onClose st 1000).scheduled = st.scheduled ∧
    (onClose st 1000).attempts = st.attempts ∧
    (codes.foldl onClose initialReconnectState).scheduled.length ≤ 5 ∧
    (codes.foldl onClose initialReconnectState).scheduled
      = (List.range (codes.foldl onClose initialReconnectState).scheduled.length).map
          (fun i => 2000 * (i + 1)) := by
  obtain ⟨h1, h2⟩ :=
    foldl_onClose_invariant codes initialReconnectState (by decide) rfl
  have hlen : (codes.foldl onClose initialReconnectState).scheduled.length
      = (codes.foldl onClose initialReconnectState).attempts := by
    rw [h2]; simp
  refine ⟨by simp [onClose], by simp [onClose], ?_, ?_⟩
  · rw [hlen]; exact h1
  · rw [hlen]; exact h2

/-- C10: `sendMessage` returns `true` and writes exactly the one chat
frame precisely when the socket is present and `isConnected` holds;
otherwise it returns `false` and writes nothing. -/
theorem C10_sendMessage_guard (socketPresent isConnected : Bool)
    (content now : String) :
    ((sendMessage socketPresent isConnected content now).ok = true
        ↔ socketPresent = true ∧ isConnected = true) ∧
    ((sendMessage socketPresent isConnected content now).ok = true →
      (sendMessage socketPresent isConnected content now).sent
        = [chatFrame content now]) ∧
    ((sendMessage socketPresent isConnected content now).ok = false →
      (sendMessage socketPresent isConnected content now).sent = []) := by
  cases socketPresent <;> cases isConnected <;> simp [sendMessage]

/-- C10 witness: connected socket sends the one frame; disconnected
socket sends nothing. -/
theorem C10_sendMessage_guard_witness :
    (sendMessage true true "hi" "T").sent = [chatFrame "hi" "T"] ∧
    (sendMessage true false "hi" "T").sent = [] :=
  ⟨(C10_sendMessage_guard true true "hi" "T").2.1 (by decide),
   (C10_sendMessage_guard true false "hi" "T").2.2 (by decide)⟩
